import Mathlib

/-!
TrafficLight: a verification development for `tl.cpp`.

A shallow embedding of the three classes of `tl.cpp` (`TrafficLight`,
`PedestrianLight`, `IntersectionController`) and theorems about them.

Modelling conventions.

* A C++ unscoped enumeration object is represented by its integer code
  (`RED = 0`, `GREEN = 1`, `YELLOW = 2`; `WALK = 0`, `DONT_WALK = 1`), so that
  the `else` branch of an `if` chain and the code after a `switch` without
  `default` are present in the model exactly as in the source.
* `int` values are `Int`; the program performs no arithmetic on them apart from
  the loop counter of `runSimulation`, which stays below its bound.
* Console output and `sleep_for` calls are recorded as a list of `Event`s in
  program order.  Values read from `std::cin` are parameters.
* `std::priority_queue<std::string>` is modelled by the contract of the
  standard library: `top` is a greatest element under `operator<` of
  `std::string` (lexicographic order, which on `String` is the order of the
  character lists), `pop` removes one occurrence of it, and both are only
  defined on a non-empty queue (`none` marks a call outside that contract).
* The model of the member functions is sequential and `queueMutex` is not part
  of the controller state. The places where the program takes and releases the
  lock are listed separately, as `SyncAction`s in the order of the program text.
* The sum `totalSleep` adds up the arguments of the `sleep_for` calls.
-/

set_option autoImplicit false

namespace TL

/-! ## Observable events -/

/-- One observable action of the program: a string written to `std::cout`, or a
call of `std::this_thread::sleep_for` with a number of seconds. -/
inductive Event where
  | out (s : String)
  | sleep (seconds : Int)
  deriving DecidableEq, Repr

/-! ## `class TrafficLight` -/

/-- The type `enum State { RED, GREEN, YELLOW }` of `TrafficLight`: an object of
the enumeration holds an integer code. -/
structure TrafficLight.State where
  code : Nat
  deriving DecidableEq, Repr

/-- Enumerator `RED` (code 0). -/
def TrafficLight.State.RED : TrafficLight.State := ⟨0⟩

/-- Enumerator `GREEN` (code 1). -/
def TrafficLight.State.GREEN : TrafficLight.State := ⟨1⟩

/-- Enumerator `YELLOW` (code 2). -/
def TrafficLight.State.YELLOW : TrafficLight.State := ⟨2⟩

/-- The data members of `class TrafficLight`. -/
structure TrafficLight where
  currentState : TrafficLight.State
  redDuration : Int
  greenDuration : Int
  yellowDuration : Int
  deriving DecidableEq, Repr

namespace TrafficLight

open TrafficLight.State

/-- The constructor `TrafficLight(int red, int green, int yellow)`. -/
def new (red green yellow : Int) : TrafficLight :=
  { currentState := RED, redDuration := red, greenDuration := green, yellowDuration := yellow }

/-- The member function `void changeState()`. -/
def changeState (t : TrafficLight) : TrafficLight :=
  if t.currentState = RED then
    { t with currentState := GREEN }
  else if t.currentState = GREEN then
    { t with currentState := YELLOW }
  else
    { t with currentState := RED }

/-- The member function `void displayState() const`: the text written to
`std::cout` (nothing when no `case` label matches). -/
def displayState (t : TrafficLight) : List Event :=
  if t.currentState = RED then [Event.out "Traffic Light: RED\n"]
  else if t.currentState = GREEN then [Event.out "Traffic Light: GREEN\n"]
  else if t.currentState = YELLOW then [Event.out "Traffic Light: YELLOW\n"]
  else []

/-- The member function `bool isGreen() const`. -/
def isGreen (t : TrafficLight) : Bool :=
  decide (t.currentState = GREEN)

/-- The `return` statement of `getStateDuration` through which a call leaves the
function: one of the three `case` labels, or the statement after the `switch`. -/
inductive ReturnSite where
  | caseRED
  | caseGREEN
  | caseYELLOW
  | fallback
  deriving DecidableEq, Repr

/-- The control flow of the `switch` in `getStateDuration`. -/
def getStateDurationSite (t : TrafficLight) : ReturnSite :=
  if t.currentState = RED then ReturnSite.caseRED
  else if t.currentState = GREEN then ReturnSite.caseGREEN
  else if t.currentState = YELLOW then ReturnSite.caseYELLOW
  else ReturnSite.fallback

/-- The member function `int getStateDuration() const`. -/
def getStateDuration (t : TrafficLight) : Int :=
  match getStateDurationSite t with
  | ReturnSite.caseRED => t.redDuration
  | ReturnSite.caseGREEN => t.greenDuration
  | ReturnSite.caseYELLOW => t.yellowDuration
  | ReturnSite.fallback => 0

/-- The light after `n` successive calls of `changeState`. -/
def changeStateN : Nat → TrafficLight → TrafficLight
  | 0, t => t
  | n + 1, t => changeStateN n (changeState t)

end TrafficLight

/-! ## `class PedestrianLight` -/

/-- The type `enum State { WALK, DONT_WALK }` of `PedestrianLight`. -/
structure PedestrianLight.State where
  code : Nat
  deriving DecidableEq, Repr

/-- Enumerator `WALK` (code 0). -/
def PedestrianLight.State.WALK : PedestrianLight.State := ⟨0⟩

/-- Enumerator `DONT_WALK` (code 1). -/
def PedestrianLight.State.DONT_WALK : PedestrianLight.State := ⟨1⟩

/-- The data member of `class PedestrianLight`. -/
structure PedestrianLight where
  currentState : PedestrianLight.State
  deriving DecidableEq, Repr

namespace PedestrianLight

open PedestrianLight.State

/-- The constructor `PedestrianLight()`. -/
def new : PedestrianLight :=
  { currentState := DONT_WALK }

/-- The member function `void changeState(bool trafficGreen)`. -/
def changeState (_p : PedestrianLight) (trafficGreen : Bool) : PedestrianLight :=
  { currentState := if trafficGreen then WALK else DONT_WALK }

/-- The member function `void displayState() const`. -/
def displayState (p : PedestrianLight) : List Event :=
  if p.currentState = WALK then [Event.out "Pedestrian Light: WALK\n"]
  else [Event.out "Pedestrian Light: DON'T WALK\n"]

end PedestrianLight

/-! ## `std::priority_queue<std::string>` -/

/-- The comparison `operator<` of `std::string`: lexicographic comparison of the
two character sequences. -/
def stringLess (a b : String) : Bool :=
  decide (a.toList < b.toList)

/-- A `std::priority_queue<std::string>` with the default comparison
`std::less<std::string>`: the elements held by the underlying container `c`. -/
structure PriorityQueue where
  c : List String
  deriving DecidableEq, Repr

namespace PriorityQueue

/-- A greatest element of a list under `stringLess`, if the list has one. -/
def greatest : List String → Option String
  | [] => none
  | x :: xs =>
    match greatest xs with
    | none => some x
    | some m => if stringLess x m then some m else some x

/-- The default constructor: an empty queue. -/
def new : PriorityQueue :=
  { c := [] }

/-- The member function `bool empty() const`. -/
def empty (q : PriorityQueue) : Bool :=
  q.c.isEmpty

/-- The member function `size_type size() const`. -/
def size (q : PriorityQueue) : Nat :=
  q.c.length

/-- The member function `void push(const value_type&)`. -/
def push (q : PriorityQueue) (x : String) : PriorityQueue :=
  { c := q.c ++ [x] }

/-- The member function `const_reference top() const`: a greatest element;
`none` when the queue is empty, where the call has no defined behaviour. -/
def top? (q : PriorityQueue) : Option String :=
  greatest q.c

/-- The member function `void pop()`: removes one occurrence of the greatest
element; `none` when the queue is empty, where the call has no defined
behaviour. -/
def pop? (q : PriorityQueue) : Option PriorityQueue :=
  match greatest q.c with
  | none => none
  | some m => some { c := q.c.erase m }

end PriorityQueue

/-! ## `class IntersectionController` -/

/-- The data members of `class IntersectionController` (without `queueMutex`). -/
structure IntersectionController where
  trafficLight : TrafficLight
  pedestrianLight : PedestrianLight
  emergencyMode : Bool
  emergencyQueue : PriorityQueue
  deriving DecidableEq, Repr

namespace IntersectionController

/-- The constructor `IntersectionController(int red, int green, int yellow)`. -/
def new (red green yellow : Int) : IntersectionController :=
  { trafficLight := TrafficLight.new red green yellow
    pedestrianLight := PedestrianLight.new
    emergencyMode := false
    emergencyQueue := PriorityQueue.new }

/-- The member function `void addEmergencyVehicle(const std::string& vehicleID)`. -/
def addEmergencyVehicle (c : IntersectionController) (vehicleID : String) :
    IntersectionController :=
  { c with
    emergencyQueue := c.emergencyQueue.push vehicleID
    emergencyMode := true }

/-- The line written by `handleEmergency` for one vehicle. -/
def handlingLine (vehicleID : String) : String :=
  "Handling emergency vehicle: " ++ vehicleID ++ "\n"

/-- One pass through the body of the `while` loop of `handleEmergency`: write
the line for `top()`, `pop()`, sleep two seconds. -/
def handleEmergencyBody (q : PriorityQueue) : Option (List Event × PriorityQueue) :=
  match q.top? with
  | none => none
  | some vehicleID =>
    match q.pop? with
    | none => none
    | some q1 => some ([Event.out (handlingLine vehicleID), Event.sleep 2], q1)

/-- The loop `while (!emergencyQueue.empty()) { ... }` of `handleEmergency`. -/
def handleEmergencyLoop (q : PriorityQueue) : Option (List Event × PriorityQueue) :=
  if q.empty then some ([], q)
  else
    match h : handleEmergencyBody q with
    | none => none
    | some (evs, q1) =>
      match handleEmergencyLoop q1 with
      | none => none
      | some (evs1, q2) => some (evs ++ evs1, q2)
termination_by q.size
decreasing_by
  simp only [handleEmergencyBody, PriorityQueue.top?, PriorityQueue.pop?] at h
  cases hg : PriorityQueue.greatest q.c with
  | none => simp [hg] at h
  | some m =>
    simp only [hg, Option.some.injEq, Prod.mk.injEq] at h
    have hm : ∀ (l : List String) (a : String), PriorityQueue.greatest l = some a → a ∈ l := by
      intro l
      induction l with
      | nil => intro a ha; simp [PriorityQueue.greatest] at ha
      | cons x xs ih =>
        intro a ha
        simp only [PriorityQueue.greatest] at ha
        cases hxs : PriorityQueue.greatest xs with
        | none => simp [hxs] at ha; simp [ha]
        | some b =>
          simp only [hxs] at ha
          split at ha
          · simp only [Option.some.injEq] at ha
            subst ha
            exact List.mem_cons_of_mem _ (ih b hxs)
          · simp only [Option.some.injEq] at ha
            simp [ha]
    have hmem := hm q.c m hg
    have hpos : 0 < q.c.length := List.length_pos_of_mem hmem
    rw [← h.2]
    simp only [PriorityQueue.size, List.length_erase_of_mem hmem]
    omega

/-- The member function `void handleEmergency()`. -/
def handleEmergency (c : IntersectionController) :
    Option (List Event × IntersectionController) :=
  match handleEmergencyLoop c.emergencyQueue with
  | none => none
  | some (evs, q) => some (evs, { c with emergencyQueue := q, emergencyMode := false })

/-- The member function `void manualOverride()`; `input` is the integer read
from `std::cin`. -/
def manualOverride (c : IntersectionController) (input : Int) :
    List Event × IntersectionController :=
  let prompt := Event.out "Manual Override: Enter 1 for RED, 2 for GREEN, 3 for YELLOW: "
  if input = 1 then
    ([prompt, Event.out "Traffic Light set to RED\n"], c)
  else if input = 2 then
    ([prompt, Event.out "Traffic Light set to GREEN\n"],
      { c with pedestrianLight := c.pedestrianLight.changeState true })
  else if input = 3 then
    ([prompt, Event.out "Traffic Light set to YELLOW\n"], c)
  else
    ([prompt, Event.out "Invalid input!\n"], c)

/-- The first three statements of the normal path of the loop body of
`runSimulation`: display the vehicle light, set the pedestrian light from
`isGreen()`, display the pedestrian light. -/
def runSimulationDisplay (c : IntersectionController) :
    List Event × IntersectionController :=
  let shown := c.trafficLight.displayState
  let ped := c.pedestrianLight.changeState c.trafficLight.isGreen
  (shown ++ ped.displayState, { c with pedestrianLight := ped })

/-- One pass through the body of the `for` loop of `runSimulation`: the
emergency path, or the normal path (display, sleep for the duration of the
current state, `changeState`, separator line). -/
def runSimulationIteration (c : IntersectionController) :
    Option (List Event × IntersectionController) :=
  if c.emergencyMode then
    handleEmergency c
  else
    let shown := runSimulationDisplay c
    let pause := Event.sleep shown.2.trafficLight.getStateDuration
    some (shown.1 ++ [pause, Event.out "---------------------\n"],
      { shown.2 with trafficLight := shown.2.trafficLight.changeState })

/-- The `for` loop of `runSimulation` with `n` passes left to run. -/
def runSimulationLoop : Nat → IntersectionController →
    Option (List Event × IntersectionController)
  | 0, c => some ([], c)
  | n + 1, c =>
    match runSimulationIteration c with
    | none => none
    | some (evs, c1) =>
      match runSimulationLoop n c1 with
      | none => none
      | some (evs1, c2) => some (evs ++ evs1, c2)

/-- The member function `void runSimulation(int cycles)`. -/
def runSimulation (c : IntersectionController) (cycles : Int) :
    Option (List Event × IntersectionController) :=
  runSimulationLoop cycles.toNat c

/-- The events of handling the vehicles `ids` one after the other: for each,
the line naming it and the two-second sleep. -/
def handlingEvents : List String → List Event
  | [] => []
  | vehicleID :: ids =>
    Event.out (handlingLine vehicleID) :: Event.sleep 2 :: handlingEvents ids

/-- The body of the `while` loop of `handleEmergency` executed `k` times in a
row, without evaluating the loop condition. -/
def handleEmergencyBodyN : Nat → PriorityQueue → Option (List Event × PriorityQueue)
  | 0, q => some ([], q)
  | k + 1, q =>
    match handleEmergencyBody q with
    | none => none
    | some (evs, q1) =>
      match handleEmergencyBodyN k q1 with
      | none => none
      | some (evs1, q2) => some (evs ++ evs1, q2)

/-- Successive calls of `addEmergencyVehicle`, one for each identifier of the
list, in the order of the list. -/
def addEmergencyVehicles (c : IntersectionController) (ids : List String) :
    IntersectionController :=
  ids.foldl addEmergencyVehicle c

/-- An operation on the controller, taken as one sequential step: a call of
`addEmergencyVehicle`, of `manualOverride` (with the integer it reads), of
`handleEmergency`, or one pass through the loop body of `runSimulation`. -/
inductive Op where
  | addEmergencyVehicle (vehicleID : String)
  | manualOverride (input : Int)
  | handleEmergency
  | runSimulationIteration
  deriving DecidableEq, Repr

/-- The effect of one operation on the controller. -/
def Op.run (c : IntersectionController) : Op → Option (List Event × IntersectionController)
  | Op.addEmergencyVehicle vehicleID => some ([], c.addEmergencyVehicle vehicleID)
  | Op.manualOverride input => some (c.manualOverride input)
  | Op.handleEmergency => c.handleEmergency
  | Op.runSimulationIteration => c.runSimulationIteration

/-- The controller after a sequence of operations, run one after the other. -/
def runOps (c : IntersectionController) : List Op → Option IntersectionController
  | [] => some c
  | op :: ops =>
    match op.run c with
    | none => none
    | some (_, c1) => runOps c1 ops

/-- The controller `c` is the state after some sequence of operations on a
freshly constructed controller. -/
def Reachable (c : IntersectionController) : Prop :=
  ∃ (red green yellow : Int) (ops : List Op),
    runOps (IntersectionController.new red green yellow) ops = some c

end IntersectionController

/-! ## `main` -/

/-- One pass through the body of the `while (true)` loop of `main`. `command` is
the integer read at the prompt, `vehicleID` the string read when the command is
1, `input` the integer read by `manualOverride` when the command is 2. The
Boolean of the result tells whether the pass leaves the loop through `break`. -/
def mainLoopIteration (c : IntersectionController) (command : Int) (vehicleID : String)
    (input : Int) : List Event × IntersectionController × Bool :=
  let prompt := Event.out "Enter command: 1 for emergency, 2 for manual override, 3 to exit: "
  if command = 1 then
    ([prompt, Event.out "Enter emergency vehicle ID: "], c.addEmergencyVehicle vehicleID, false)
  else if command = 2 then
    (prompt :: (c.manualOverride input).1, (c.manualOverride input).2, false)
  else if command = 3 then
    ([prompt], c, true)
  else
    ([prompt, Event.out "Invalid command!\n"], c, false)

/-! ## Sleep time -/

/-- The sum of the numbers of seconds passed to `sleep_for` in a list of
events. -/
def totalSleep : List Event → Int
  | [] => 0
  | Event.out _ :: evs => totalSleep evs
  | Event.sleep seconds :: evs => seconds + totalSleep evs

/-- The sum of the durations of the states the light shows in `n` successive
normal iterations of `runSimulation`, starting with the light `t`. -/
def TrafficLight.durationSum : Nat → TrafficLight → Int
  | 0, _ => 0
  | n + 1, t => t.getStateDuration + TrafficLight.durationSum n t.changeState

/-! ## The queue mutex -/

/-- An action of a member function on `queueMutex` or on the data shared by the
two threads, or a sleep, in the order of the program text. -/
inductive SyncAction where
  | lock
  | unlock
  | queueEmpty
  | queueTop
  | queuePop
  | queuePush
  | setEmergencyMode (value : Bool)
  | sleep (seconds : Int)
  deriving DecidableEq, Repr

/-- The actions of `addEmergencyVehicle`: the `lock_guard` is constructed, the
identifier pushed, `emergencyMode` set, and the guard destroyed at the end of
the function body. -/
def addEmergencyVehicleSync : List SyncAction :=
  [SyncAction.lock, SyncAction.queuePush, SyncAction.setEmergencyMode true, SyncAction.unlock]

/-- The actions of one pass through the body of the `while` loop of
`handleEmergency`: the `lock_guard` is constructed, `top()` written out, `pop()`
called, the thread sleeps two seconds, and the guard is destroyed at the end of
the loop body. -/
def handleEmergencyBodySync : List SyncAction :=
  [SyncAction.lock, SyncAction.queueTop, SyncAction.queuePop, SyncAction.sleep 2,
    SyncAction.unlock]

/-- The actions of `handleEmergency` when its loop makes `n` passes: before each
pass and once more at the end the loop condition `!emergencyQueue.empty()` is
evaluated, and after the loop `emergencyMode` is set to false. -/
def handleEmergencySyncN : Nat → List SyncAction
  | 0 => [SyncAction.queueEmpty, SyncAction.setEmergencyMode false]
  | n + 1 => SyncAction.queueEmpty :: (handleEmergencyBodySync ++ handleEmergencySyncN n)

/-- The actions of `handleEmergency` on the controller `c` in sequential
execution: the loop makes one pass for each element of the queue. -/
def IntersectionController.handleEmergencySync (c : IntersectionController) :
    List SyncAction :=
  handleEmergencySyncN c.emergencyQueue.size

/-- Each action of a list paired with whether the thread holds `queueMutex`
when it performs the action; `held` is the state before the first action. -/
def withLockState : Bool → List SyncAction → List (SyncAction × Bool)
  | _, [] => []
  | held, SyncAction.lock :: rest => (SyncAction.lock, held) :: withLockState true rest
  | held, SyncAction.unlock :: rest => (SyncAction.unlock, held) :: withLockState false rest
  | held, a :: rest => (a, held) :: withLockState held rest

/-- Whether the thread holds `queueMutex` after a list of actions. -/
def lockStateAfter : Bool → List SyncAction → Bool
  | held, [] => held
  | _, SyncAction.lock :: rest => lockStateAfter true rest
  | _, SyncAction.unlock :: rest => lockStateAfter false rest
  | held, _ :: rest => lockStateAfter held rest

end TL

/-! # Theorems -/

namespace TL

open TrafficLight.State PedestrianLight.State

/-! ## The vehicle light -/

/-- The three enumerators of `TrafficLight::State` are pairwise distinct. -/
theorem TrafficLight.State.enumerators_distinct :
    RED ≠ GREEN ∧ GREEN ≠ YELLOW ∧ YELLOW ≠ RED := by
  decide

/-- After `changeState` the state is one of the three enumerators, whatever the
state was before. -/
theorem TrafficLight.changeState_enumerator (t : TrafficLight) :
    t.changeState.currentState = RED ∨ t.changeState.currentState = GREEN ∨
      t.changeState.currentState = YELLOW := by
  unfold TrafficLight.changeState
  split
  · right; left; rfl
  · split
    · right; right; rfl
    · left; rfl

/-- The function `changeState` does not touch the three durations. -/
theorem TrafficLight.changeState_durations (t : TrafficLight) :
    t.changeState.redDuration = t.redDuration ∧
      t.changeState.greenDuration = t.greenDuration ∧
      t.changeState.yellowDuration = t.yellowDuration := by
  unfold TrafficLight.changeState
  split
  · exact ⟨rfl, rfl, rfl⟩
  · split <;> exact ⟨rfl, rfl, rfl⟩

/-- Successive calls of `changeState` do not touch the three durations. -/
theorem TrafficLight.changeStateN_durations (n : Nat) (t : TrafficLight) :
    (t.changeStateN n).redDuration = t.redDuration ∧
      (t.changeStateN n).greenDuration = t.greenDuration ∧
      (t.changeStateN n).yellowDuration = t.yellowDuration := by
  induction n generalizing t with
  | zero => exact ⟨rfl, rfl, rfl⟩
  | succ k ih =>
    have h1 := ih t.changeState
    have h2 := TrafficLight.changeState_durations t
    simp only [TrafficLight.changeStateN]
    exact ⟨h1.1.trans h2.1, h1.2.1.trans h2.2.1, h1.2.2.trans h2.2.2⟩

/-- Starting from an enumerator, successive calls of `changeState` stay within
the three enumerators. -/
theorem TrafficLight.changeStateN_enumerator (n : Nat) (t : TrafficLight)
    (h : t.currentState = RED ∨ t.currentState = GREEN ∨ t.currentState = YELLOW) :
    (t.changeStateN n).currentState = RED ∨ (t.changeStateN n).currentState = GREEN ∨
      (t.changeStateN n).currentState = YELLOW := by
  induction n generalizing t with
  | zero => exact h
  | succ k ih => exact ih t.changeState (TrafficLight.changeState_enumerator t)

/-- C1: `changeState` maps RED to GREEN, GREEN to YELLOW and YELLOW to RED
(durations untouched), and for every state of the light, whatever it holds, the
call yields a state whose phase is one of RED, GREEN, YELLOW. -/
theorem C1_changeState_cycle (r g y : Int) (t : TrafficLight) :
    TrafficLight.changeState ⟨RED, r, g, y⟩ = ⟨GREEN, r, g, y⟩ ∧
    TrafficLight.changeState ⟨GREEN, r, g, y⟩ = ⟨YELLOW, r, g, y⟩ ∧
    TrafficLight.changeState ⟨YELLOW, r, g, y⟩ = ⟨RED, r, g, y⟩ ∧
    (t.changeState.currentState = RED ∨ t.changeState.currentState = GREEN ∨
      t.changeState.currentState = YELLOW) :=
  ⟨rfl, rfl, rfl, TrafficLight.changeState_enumerator t⟩

/-- C2: from each of the phases RED, GREEN and YELLOW, exactly three calls of
`changeState` bring the light back to the state it started from. -/
theorem C2_changeState_three (r g y : Int) :
    TrafficLight.changeStateN 3 ⟨RED, r, g, y⟩ = ⟨RED, r, g, y⟩ ∧
    TrafficLight.changeStateN 3 ⟨GREEN, r, g, y⟩ = ⟨GREEN, r, g, y⟩ ∧
    TrafficLight.changeStateN 3 ⟨YELLOW, r, g, y⟩ = ⟨YELLOW, r, g, y⟩ :=
  ⟨rfl, rfl, rfl⟩

/-- C3: after `PedestrianLight::changeState(v)` the light is WALK exactly when
`v` is true and DONT_WALK exactly when `v` is false, the result does not depend
on the state before the call, and a second call with the same `v` changes
nothing. -/
theorem C3_pedestrian_changeState (p p' : PedestrianLight) (v : Bool) :
    ((p.changeState v).currentState = WALK ↔ v = true) ∧
    ((p.changeState v).currentState = DONT_WALK ↔ v = false) ∧
    p.changeState v = p'.changeState v ∧
    (p.changeState v).changeState v = p.changeState v := by
  cases v <;> simp [PedestrianLight.changeState] <;> decide

/-- C4: after construction with durations `(r, g, y)` and `n` calls of
`changeState`, the three durations are still `r`, `g`, `y`, and
`getStateDuration` leaves through the `case` label of the current phase with
that phase's duration; it never leaves through the fallback `return 0`. -/
theorem C4_getStateDuration (r g y : Int) (n : Nat) :
    ((TrafficLight.new r g y).changeStateN n).redDuration = r ∧
    ((TrafficLight.new r g y).changeStateN n).greenDuration = g ∧
    ((TrafficLight.new r g y).changeStateN n).yellowDuration = y ∧
    ((((TrafficLight.new r g y).changeStateN n).currentState = RED ∧
        ((TrafficLight.new r g y).changeStateN n).getStateDurationSite
          = TrafficLight.ReturnSite.caseRED ∧
        ((TrafficLight.new r g y).changeStateN n).getStateDuration = r) ∨
      (((TrafficLight.new r g y).changeStateN n).currentState = GREEN ∧
        ((TrafficLight.new r g y).changeStateN n).getStateDurationSite
          = TrafficLight.ReturnSite.caseGREEN ∧
        ((TrafficLight.new r g y).changeStateN n).getStateDuration = g) ∨
      (((TrafficLight.new r g y).changeStateN n).currentState = YELLOW ∧
        ((TrafficLight.new r g y).changeStateN n).getStateDurationSite
          = TrafficLight.ReturnSite.caseYELLOW ∧
        ((TrafficLight.new r g y).changeStateN n).getStateDuration = y)) ∧
    ((TrafficLight.new r g y).changeStateN n).getStateDurationSite
      ≠ TrafficLight.ReturnSite.fallback := by
  have hd := TrafficLight.changeStateN_durations n (TrafficLight.new r g y)
  have he := TrafficLight.changeStateN_enumerator n (TrafficLight.new r g y) (Or.inl rfl)
  generalize (TrafficLight.new r g y).changeStateN n = t at hd he
  have hr : t.redDuration = r := hd.1
  have hg : t.greenDuration = g := hd.2.1
  have hy : t.yellowDuration = y := hd.2.2
  refine ⟨hr, hg, hy, ?_, ?_⟩
  · rcases he with h | h | h
    · left
      simp [TrafficLight.getStateDuration, TrafficLight.getStateDurationSite, h, hr]
    · right; left
      have h1 : GREEN ≠ RED := by decide
      simp [TrafficLight.getStateDuration, TrafficLight.getStateDurationSite, h, hg, h1]
    · right; right
      have h1 : YELLOW ≠ RED := by decide
      have h2 : YELLOW ≠ GREEN := by decide
      simp [TrafficLight.getStateDuration, TrafficLight.getStateDurationSite, h, hy, h1, h2]
  · rcases he with h | h | h
    · simp [TrafficLight.getStateDurationSite, h]
    · have h1 : GREEN ≠ RED := by decide
      simp [TrafficLight.getStateDurationSite, h, h1]
    · have h1 : YELLOW ≠ RED := by decide
      have h2 : YELLOW ≠ GREEN := by decide
      simp [TrafficLight.getStateDurationSite, h, h1, h2]

end TL

namespace TL

open IntersectionController

/-! ## The emergency queue -/

/-- The comparison `stringLess` is the strict order of `String`. -/
theorem stringLess_iff (a b : String) : stringLess a b = true ↔ a < b := by
  simp [stringLess, String.lt_iff_toList_lt]

/-- The comparison `stringLess a b` fails exactly when `b ≤ a`. -/
theorem stringLess_false_iff (a b : String) : stringLess a b = false ↔ b ≤ a := by
  rw [← not_lt, ← stringLess_iff]
  simp

/-- A list has no greatest element only when it is empty. -/
theorem PriorityQueue.greatest_eq_none (l : List String) :
    PriorityQueue.greatest l = none ↔ l = [] := by
  cases l with
  | nil => simp [PriorityQueue.greatest]
  | cons x xs =>
    simp only [PriorityQueue.greatest]
    cases PriorityQueue.greatest xs with
    | none => simp
    | some m => by_cases h : stringLess x m = true <;> simp [h]

/-- The greatest element of a list belongs to the list. -/
theorem PriorityQueue.greatest_mem (l : List String) (m : String)
    (h : PriorityQueue.greatest l = some m) : m ∈ l := by
  induction l generalizing m with
  | nil => simp [PriorityQueue.greatest] at h
  | cons x xs ih =>
    simp only [PriorityQueue.greatest] at h
    cases hxs : PriorityQueue.greatest xs with
    | none =>
      simp only [hxs, Option.some.injEq] at h
      simp [h]
    | some b =>
      simp only [hxs] at h
      by_cases hlt : stringLess x b = true
      · simp only [hlt, if_true, Option.some.injEq] at h
        subst h
        exact List.mem_cons_of_mem _ (ih b hxs)
      · simp only [hlt, Bool.false_eq_true, if_false, Option.some.injEq] at h
        simp [← h]

/-- No element of a list is above its greatest element. -/
theorem PriorityQueue.le_greatest (l : List String) (m : String)
    (h : PriorityQueue.greatest l = some m) : ∀ z ∈ l, z ≤ m := by
  induction l generalizing m with
  | nil => simp
  | cons x xs ih =>
    simp only [PriorityQueue.greatest] at h
    cases hxs : PriorityQueue.greatest xs with
    | none =>
      simp only [hxs, Option.some.injEq] at h
      have hnil := (PriorityQueue.greatest_eq_none xs).1 hxs
      subst hnil
      simp [h]
    | some b =>
      simp only [hxs] at h
      have hb := ih b hxs
      by_cases hlt : stringLess x b = true
      · simp only [hlt, if_true, Option.some.injEq] at h
        subst h
        intro z hz
        rcases List.mem_cons.1 hz with rfl | hz
        · exact le_of_lt ((stringLess_iff _ _).1 hlt)
        · exact hb z hz
      · simp only [hlt, Bool.false_eq_true, if_false, Option.some.injEq] at h
        subst h
        have hbx : b ≤ x := (stringLess_false_iff x b).1 (by simpa using hlt)
        intro z hz
        rcases List.mem_cons.1 hz with rfl | hz
        · exact le_refl _
        · exact le_trans (hb z hz) hbx

/-- On a non-empty queue the loop body of `handleEmergency` reports the greatest
element and removes one occurrence of it. -/
theorem IntersectionController.handleEmergencyBody_of_greatest (q : PriorityQueue) (m : String)
    (h : PriorityQueue.greatest q.c = some m) :
    handleEmergencyBody q
      = some ([Event.out (handlingLine m), Event.sleep 2], { c := q.c.erase m }) := by
  simp [handleEmergencyBody, PriorityQueue.top?, PriorityQueue.pop?, h]

/-- The loop of `handleEmergency` stops at once on an empty queue. -/
theorem IntersectionController.handleEmergencyLoop_empty (q : PriorityQueue)
    (h : q.empty = true) : handleEmergencyLoop q = some ([], q) := by
  rw [handleEmergencyLoop]
  simp [h]

/-- On a non-empty queue the loop of `handleEmergency` runs its body once and
goes on with the queue the body leaves. -/
theorem IntersectionController.handleEmergencyLoop_step (q q1 : PriorityQueue)
    (evs : List Event) (hne : q.empty = false) (hb : handleEmergencyBody q = some (evs, q1)) :
    handleEmergencyLoop q =
      match handleEmergencyLoop q1 with
      | none => none
      | some (evs1, q2) => some (evs ++ evs1, q2) := by
  rw [handleEmergencyLoop]
  simp only [hne, Bool.false_eq_true, if_false]
  split
  · rename_i h
    rw [hb] at h
    cases h
  · rename_i e q1' h
    rw [hb] at h
    cases h
    rfl

/-- Handling `m` first and then `ids` gives the two events of `m` followed by
the events of `ids`. -/
theorem IntersectionController.handlingEvents_cons (m : String) (ids : List String) :
    handlingEvents (m :: ids)
      = [Event.out (handlingLine m), Event.sleep 2] ++ handlingEvents ids := rfl

/-- The loop of `handleEmergency` on a queue of `n` elements: it ends with the
empty queue, the vehicles it handles are the elements of the queue from the
greatest down, it is the same as `n` runs of the loop body, and after fewer
runs of the body the queue is not yet empty. -/
theorem IntersectionController.handleEmergencyLoop_spec (n : Nat) (q : PriorityQueue)
    (hn : q.c.length = n) :
    ∃ handled : List String,
      handleEmergencyLoop q = some (handlingEvents handled, PriorityQueue.new) ∧
      handled.Perm q.c ∧
      handled.Pairwise (fun a b => b ≤ a) ∧
      handleEmergencyBodyN n q = some (handlingEvents handled, PriorityQueue.new) ∧
      ∀ k, k < n → ∃ qk : PriorityQueue,
        handleEmergencyBodyN k q = some (handlingEvents (handled.take k), qk) ∧
        qk.empty = false := by
  induction n generalizing q with
  | zero =>
    have hq : q = PriorityQueue.new := by
      cases q with
      | mk c =>
        have hc : c = [] := List.length_eq_zero.1 hn
        subst hc
        rfl
    subst hq
    refine ⟨[], ?_, ?_, ?_, ?_, ?_⟩
    · exact handleEmergencyLoop_empty _ rfl
    · exact List.Perm.refl _
    · exact List.Pairwise.nil
    · rfl
    · intro k hk
      exact absurd hk (Nat.not_lt_zero k)
  | succ n ih =>
    have hne : q.c ≠ [] := by
      intro h0
      rw [h0] at hn
      cases hn
    have hempty : q.empty = false := by
      cases hc : q.c with
      | nil => exact absurd hc hne
      | cons x xs => simp [PriorityQueue.empty, hc]
    cases hg : PriorityQueue.greatest q.c with
    | none => exact absurd ((PriorityQueue.greatest_eq_none q.c).1 hg) hne
    | some m =>
      have hmem : m ∈ q.c := PriorityQueue.greatest_mem q.c m hg
      have hle : ∀ z ∈ q.c, z ≤ m := PriorityQueue.le_greatest q.c m hg
      have hbody := handleEmergencyBody_of_greatest q m hg
      have hlen : (q.c.erase m).length = n := by
        rw [List.length_erase_of_mem hmem, hn]
        rfl
      obtain ⟨rest, hloop, hperm, hsorted, hbodyN, hprefix⟩ := ih { c := q.c.erase m } hlen
      refine ⟨m :: rest, ?_, ?_, ?_, ?_, ?_⟩
      · rw [handleEmergencyLoop_step q _ _ hempty hbody, hloop]
        rfl
      · exact (List.Perm.cons m hperm).trans (List.perm_cons_erase hmem).symm
      · refine List.Pairwise.cons ?_ hsorted
        intro z hz
        exact hle z (List.mem_of_mem_erase (hperm.subset hz))
      · simp only [handleEmergencyBodyN, hbody, hbodyN]
        rfl
      · intro k hk
        cases k with
        | zero => exact ⟨q, rfl, hempty⟩
        | succ j =>
          obtain ⟨qk, hj, hqk⟩ := hprefix j (Nat.lt_of_succ_lt_succ hk)
          refine ⟨qk, ?_, hqk⟩
          simp only [handleEmergencyBodyN, hbody, hj]
          rfl

/-- Two arrangements of the same identifiers, both in non-increasing order, are
the same list. -/
theorem nonincreasing_unique (l₁ l₂ : List String) (hp : l₁.Perm l₂)
    (h₁ : l₁.Pairwise (fun a b => b ≤ a)) (h₂ : l₂.Pairwise (fun a b => b ≤ a)) :
    l₁ = l₂ := by
  induction l₁ generalizing l₂ with
  | nil => exact (List.Perm.nil_eq hp)
  | cons a t ih =>
    cases l₂ with
    | nil => exact absurd hp.length_eq (by simp)
    | cons b u =>
      have ha := List.pairwise_cons.1 h₁
      have hb := List.pairwise_cons.1 h₂
      have hab : a = b := by
        have h1 : a ∈ b :: u := hp.subset (List.mem_cons_self a t)
        have h2 : b ∈ a :: t := hp.symm.subset (List.mem_cons_self b u)
        rcases List.mem_cons.1 h1 with h | h
        · exact h
        · rcases List.mem_cons.1 h2 with h' | h'
          · exact h'.symm
          · exact le_antisymm (hb.1 a h) (ha.1 b h')
      subst hab
      rw [ih u (List.Perm.cons_inv hp) ha.2 hb.2]

/-- Non-increasing order stated with `stringLess` and with the order of
`String` are the same property. -/
theorem pairwise_stringLess_iff (l : List String) :
    l.Pairwise (fun a b => stringLess a b = false) ↔ l.Pairwise (fun a b => b ≤ a) := by
  constructor
  · exact List.Pairwise.imp (fun {a b} h => (stringLess_false_iff a b).1 h)
  · exact List.Pairwise.imp (fun {a b} h => (stringLess_false_iff a b).2 h)

/-- The queue after a series of `addEmergencyVehicle` calls holds the former
elements and the new identifiers. -/
theorem IntersectionController.addEmergencyVehicles_queue (ids : List String)
    (c : IntersectionController) :
    (c.addEmergencyVehicles ids).emergencyQueue.c = c.emergencyQueue.c ++ ids := by
  induction ids generalizing c with
  | nil => simp [addEmergencyVehicles]
  | cons x xs ih =>
    have h := ih (c.addEmergencyVehicle x)
    simp only [addEmergencyVehicles, List.foldl_cons] at h ⊢
    rw [h]
    simp [addEmergencyVehicle, PriorityQueue.push]

/-- A series of `addEmergencyVehicle` calls leaves both lights as they were. -/
theorem IntersectionController.addEmergencyVehicles_lights (ids : List String)
    (c : IntersectionController) :
    (c.addEmergencyVehicles ids).trafficLight = c.trafficLight ∧
      (c.addEmergencyVehicles ids).pedestrianLight = c.pedestrianLight := by
  induction ids generalizing c with
  | nil => exact ⟨rfl, rfl⟩
  | cons x xs ih =>
    have h := ih (c.addEmergencyVehicle x)
    simp only [addEmergencyVehicles, List.foldl_cons] at h ⊢
    exact ⟨h.1, h.2⟩

/-- A queue is `empty()` exactly when its container is the empty list. -/
theorem PriorityQueue.empty_iff (q : PriorityQueue) : q.empty = true ↔ q.c = [] := by
  simp [PriorityQueue.empty]

/-- The function `handleEmergency` on a controller whose queue is empty: no
pass through the loop, no output, and `emergencyMode` set to false. -/
theorem IntersectionController.handleEmergency_of_empty (c : IntersectionController)
    (h : c.emergencyQueue.empty = true) :
    c.handleEmergency = some ([], { c with emergencyMode := false }) := by
  simp [handleEmergency, handleEmergencyLoop_empty _ h]

/-- The function `handleEmergency` in general: it returns, the queue is empty
and `emergencyMode` false afterwards, the lights are untouched, and the
vehicles handled are the queue contents from the greatest down. -/
theorem IntersectionController.handleEmergency_spec (c : IntersectionController) :
    ∃ handled : List String,
      c.handleEmergency = some (handlingEvents handled,
        { c with emergencyQueue := PriorityQueue.new, emergencyMode := false }) ∧
      handled.Perm c.emergencyQueue.c ∧
      handled.Pairwise (fun a b => b ≤ a) := by
  obtain ⟨handled, hloop, hperm, hsorted, _, _⟩ :=
    handleEmergencyLoop_spec c.emergencyQueue.c.length c.emergencyQueue rfl
  exact ⟨handled, by simp [handleEmergency, hloop], hperm, hsorted⟩

/-! ## Claims on the emergency queue -/

/-- C5: service order is by value. One pass of the drain loop on a non-empty
queue reports a greatest identifier of the queue and removes one occurrence of
it; and when the identifiers `ids` are enqueued on an empty queue, the handled
sequence is a rearrangement of `ids` in non-increasing lexicographic order, the
same for every other enqueue order `ids'` of the same identifiers. -/
theorem C5_service_order (c : IntersectionController) (ids ids' : List String)
    (x : String) (l : List String)
    (hc : c.emergencyQueue.empty = true) (hperm : ids'.Perm ids) :
    (∃ m : String, m ∈ x :: l ∧ (∀ z ∈ x :: l, stringLess m z = false) ∧
      handleEmergencyBody { c := x :: l }
        = some ([Event.out (handlingLine m), Event.sleep 2], { c := (x :: l).erase m })) ∧
    ∃ handled : List String,
      handled.Perm ids ∧
      handled.Pairwise (fun a b => stringLess a b = false) ∧
      (c.addEmergencyVehicles ids).handleEmergency
        = some (handlingEvents handled,
            { c with emergencyQueue := PriorityQueue.new, emergencyMode := false }) ∧
      (c.addEmergencyVehicles ids').handleEmergency
        = some (handlingEvents handled,
            { c with emergencyQueue := PriorityQueue.new, emergencyMode := false }) := by
  have hc0 : c.emergencyQueue.c = [] := (PriorityQueue.empty_iff _).1 hc
  constructor
  · cases hg : PriorityQueue.greatest (x :: l) with
    | none => exact absurd ((PriorityQueue.greatest_eq_none _).1 hg) (by simp)
    | some m =>
      refine ⟨m, PriorityQueue.greatest_mem _ m hg, ?_, ?_⟩
      · intro z hz
        exact (stringLess_false_iff m z).2 (PriorityQueue.le_greatest _ m hg z hz)
      · exact handleEmergencyBody_of_greatest { c := x :: l } m hg
  · obtain ⟨h1, e1, p1, s1⟩ := handleEmergency_spec (c.addEmergencyVehicles ids)
    obtain ⟨h2, e2, p2, s2⟩ := handleEmergency_spec (c.addEmergencyVehicles ids')
    have q1 := addEmergencyVehicles_queue ids c
    have q2 := addEmergencyVehicles_queue ids' c
    rw [hc0, List.nil_append] at q1 q2
    rw [q1] at p1
    rw [q2] at p2
    have heq : h2 = h1 := nonincreasing_unique h2 h1 (p2.trans (hperm.trans p1.symm)) s2 s1
    subst heq
    have l1 := addEmergencyVehicles_lights ids c
    have l2 := addEmergencyVehicles_lights ids' c
    refine ⟨h2, p1, (pairwise_stringLess_iff h2).2 s1, ?_, ?_⟩
    · rw [e1, l1.1, l1.2]
    · rw [e2, l2.1, l2.2]

/-- C5 at the example of the claim: "AMB1" then "AMB2" on the empty queue of a
fresh controller are handled as "AMB2", "AMB1", and so are they when enqueued in
the other order. -/
theorem C5_service_order_witness :
    (IntersectionController.new 5 3 2).emergencyQueue.empty = true ∧
    List.Perm ["AMB2", "AMB1"] ["AMB1", "AMB2"] ∧
    ((IntersectionController.new 5 3 2).addEmergencyVehicles ["AMB1", "AMB2"]).handleEmergency
      = some (handlingEvents ["AMB2", "AMB1"], IntersectionController.new 5 3 2) ∧
    ((IntersectionController.new 5 3 2).addEmergencyVehicles ["AMB2", "AMB1"]).handleEmergency
      = some (handlingEvents ["AMB2", "AMB1"], IntersectionController.new 5 3 2) := by
  have hswap : List.Perm ["AMB2", "AMB1"] ["AMB1", "AMB2"] := List.Perm.swap _ _ _
  obtain ⟨_, handled, hp, hs, e1, e2⟩ :=
    C5_service_order (IntersectionController.new 5 3 2) ["AMB1", "AMB2"] ["AMB2", "AMB1"]
      "AMB1" ["AMB2"] rfl hswap
  have hsorted : List.Pairwise (fun a b => stringLess a b = false) ["AMB2", "AMB1"] := by
    decide
  have heq : handled = ["AMB2", "AMB1"] :=
    nonincreasing_unique _ _ (hp.trans hswap.symm)
      ((pairwise_stringLess_iff _).1 hs) ((pairwise_stringLess_iff _).1 hsorted)
  subst heq
  exact ⟨rfl, hswap, e1, e2⟩

/-- C6: after the identifiers `ids` are enqueued on an empty queue,
`handleEmergency` returns; it handles as many vehicles as were enqueued, each
with one line, and the handled identifiers are the enqueued ones with their
multiplicities; its loop amounts to exactly `ids.length` runs of the body, after
which the queue is empty, while after any smaller number `k` of runs the queue
is not empty and `k` vehicles have been handled. -/
theorem C6_drain_count (c : IntersectionController) (ids : List String)
    (hc : c.emergencyQueue.empty = true) :
    ∃ handled : List String,
      (c.addEmergencyVehicles ids).handleEmergency
        = some (handlingEvents handled,
            { c with emergencyQueue := PriorityQueue.new, emergencyMode := false }) ∧
      handled.length = ids.length ∧
      (handled : Multiset String) = (ids : Multiset String) ∧
      handleEmergencyBodyN ids.length (c.addEmergencyVehicles ids).emergencyQueue
        = some (handlingEvents handled, PriorityQueue.new) ∧
      PriorityQueue.new.empty = true ∧
      ∀ k, k < ids.length → ∃ qk : PriorityQueue,
        handleEmergencyBodyN k (c.addEmergencyVehicles ids).emergencyQueue
          = some (handlingEvents (handled.take k), qk) ∧
        qk.empty = false := by
  have hc0 : c.emergencyQueue.c = [] := (PriorityQueue.empty_iff _).1 hc
  have hq := addEmergencyVehicles_queue ids c
  rw [hc0, List.nil_append] at hq
  have hl := addEmergencyVehicles_lights ids c
  obtain ⟨handled, hloop, hperm, _, hbodyN, hprefix⟩ :=
    handleEmergencyLoop_spec ids.length (c.addEmergencyVehicles ids).emergencyQueue
      (by rw [hq])
  rw [hq] at hperm
  refine ⟨handled, ?_, hperm.length_eq, Multiset.coe_eq_coe.2 hperm, hbodyN, rfl, hprefix⟩
  simp only [handleEmergency, hloop]
  rw [hl.1, hl.2]

/-- C6 at three enqueued identifiers, one of them twice, on a fresh controller. -/
theorem C6_drain_count_witness :
    (IntersectionController.new 5 3 2).emergencyQueue.empty = true ∧
    ∃ handled : List String,
      ((IntersectionController.new 5 3 2).addEmergencyVehicles
          ["AMB1", "FIRE7", "AMB1"]).handleEmergency
        = some (handlingEvents handled, IntersectionController.new 5 3 2) ∧
      handled.length = 3 ∧
      (handled : Multiset String) = (["AMB1", "FIRE7", "AMB1"] : Multiset String) ∧
      handleEmergencyBodyN 3 ((IntersectionController.new 5 3 2).addEmergencyVehicles
          ["AMB1", "FIRE7", "AMB1"]).emergencyQueue
        = some (handlingEvents handled, PriorityQueue.new) ∧
      PriorityQueue.new.empty = true ∧
      ∀ k, k < 3 → ∃ qk : PriorityQueue,
        handleEmergencyBodyN k ((IntersectionController.new 5 3 2).addEmergencyVehicles
            ["AMB1", "FIRE7", "AMB1"]).emergencyQueue
          = some (handlingEvents (handled.take k), qk) ∧
        qk.empty = false :=
  ⟨rfl, C6_drain_count (IntersectionController.new 5 3 2) ["AMB1", "FIRE7", "AMB1"] rfl⟩

/-- C7, the claim refuted: on the empty queue of a fresh controller
`handleEmergency` succeeds and writes nothing, so no error is reported. -/
theorem C7_counterexample :
    (IntersectionController.new 5 3 2).emergencyQueue.empty = true ∧
    (IntersectionController.new 5 3 2).handleEmergency
      = some ([], IntersectionController.new 5 3 2) :=
  ⟨rfl, handleEmergency_of_empty _ rfl⟩

/-- C7 as amended: on an empty queue `handleEmergency` succeeds without
draining; it writes nothing, handles no identifier, leaves the queue and the
lights as they are and sets `emergencyMode` to false. -/
theorem C7_empty_queue_no_error (c : IntersectionController)
    (h : c.emergencyQueue.empty = true) :
    c.handleEmergency = some ([], { c with emergencyMode := false }) :=
  handleEmergency_of_empty c h

/-- C7 as amended, at a controller with an empty queue and `emergencyMode` set. -/
theorem C7_empty_queue_no_error_witness :
    ({ IntersectionController.new 5 3 2 with emergencyMode := true }).emergencyQueue.empty = true ∧
    ({ IntersectionController.new 5 3 2 with emergencyMode := true }).handleEmergency
      = some ([], IntersectionController.new 5 3 2) :=
  ⟨rfl, C7_empty_queue_no_error { IntersectionController.new 5 3 2 with emergencyMode := true } rfl⟩

/-- C8: `addEmergencyVehicle(id)` is total; afterwards `emergencyMode` is true,
the queue holds its former contents and one more occurrence of `id`, and both
lights are as before. -/
theorem C8_addEmergencyVehicle (c : IntersectionController) (vehicleID : String) :
    (c.addEmergencyVehicle vehicleID).emergencyMode = true ∧
    ((c.addEmergencyVehicle vehicleID).emergencyQueue.c : Multiset String)
      = vehicleID ::ₘ (c.emergencyQueue.c : Multiset String) ∧
    (c.addEmergencyVehicle vehicleID).emergencyQueue.size = c.emergencyQueue.size + 1 ∧
    (c.addEmergencyVehicle vehicleID).trafficLight = c.trafficLight ∧
    (c.addEmergencyVehicle vehicleID).pedestrianLight = c.pedestrianLight := by
  refine ⟨rfl, ?_, ?_, rfl, rfl⟩
  · simp only [addEmergencyVehicle, PriorityQueue.push, Multiset.cons_coe, Multiset.coe_eq_coe]
    exact List.perm_append_singleton _ _
  · simp [addEmergencyVehicle, PriorityQueue.push, PriorityQueue.size]

/-! ## Invariants of the controller -/

/-- The function `manualOverride` changes neither the vehicle light, nor the
queue, nor `emergencyMode`. -/
theorem IntersectionController.manualOverride_frame (c : IntersectionController)
    (input : Int) :
    (c.manualOverride input).2.trafficLight = c.trafficLight ∧
      (c.manualOverride input).2.emergencyQueue = c.emergencyQueue ∧
      (c.manualOverride input).2.emergencyMode = c.emergencyMode := by
  unfold manualOverride
  by_cases h1 : input = 1
  · simp [h1]
  · by_cases h2 : input = 2
    · simp [h2]
    · by_cases h3 : input = 3
      · simp [h3]
      · simp [h1, h2, h3]

/-- Each operation keeps the link between `emergencyMode` and the queue:
`emergencyMode` is set exactly when the queue is not empty. -/
theorem Op.run_emergencyMode (c c1 : IntersectionController) (op : Op) (evs : List Event)
    (hrun : op.run c = some (evs, c1))
    (hc : c.emergencyMode = true ↔ c.emergencyQueue.empty = false) :
    c1.emergencyMode = true ↔ c1.emergencyQueue.empty = false := by
  have hhandle : ∀ e d, c.handleEmergency = some (e, d) →
      (d.emergencyMode = true ↔ d.emergencyQueue.empty = false) := by
    intro e d hd
    obtain ⟨handled, hspec, _, _⟩ := handleEmergency_spec c
    rw [hspec] at hd
    simp only [Option.some.injEq, Prod.mk.injEq] at hd
    rw [← hd.2]
    simp [PriorityQueue.new, PriorityQueue.empty]
  cases op with
  | addEmergencyVehicle vehicleID =>
    simp only [Op.run, Option.some.injEq, Prod.mk.injEq] at hrun
    rw [← hrun.2]
    simp [addEmergencyVehicle, PriorityQueue.push, PriorityQueue.empty]
  | manualOverride input =>
    simp only [Op.run, Option.some.injEq] at hrun
    have hf := manualOverride_frame c input
    rw [hrun] at hf
    simp only at hf
    rw [hf.2.1, hf.2.2]
    exact hc
  | handleEmergency => exact hhandle evs c1 hrun
  | runSimulationIteration =>
    simp only [Op.run, runSimulationIteration] at hrun
    by_cases hm : c.emergencyMode = true
    · simp only [hm, if_true] at hrun
      exact hhandle evs c1 hrun
    · simp only [hm, Bool.false_eq_true, if_false, Option.some.injEq, Prod.mk.injEq] at hrun
      rw [← hrun.2]
      simpa [runSimulationDisplay] using hc

/-- A sequence of operations keeps the link between `emergencyMode` and the
queue. -/
theorem runOps_emergencyMode (ops : List Op) (c c1 : IntersectionController)
    (hrun : runOps c ops = some c1)
    (hc : c.emergencyMode = true ↔ c.emergencyQueue.empty = false) :
    c1.emergencyMode = true ↔ c1.emergencyQueue.empty = false := by
  induction ops generalizing c with
  | nil =>
    simp only [runOps, Option.some.injEq] at hrun
    rw [← hrun]
    exact hc
  | cons op ops ih =>
    simp only [runOps] at hrun
    cases hop : op.run c with
    | none => simp [hop] at hrun
    | some r =>
      obtain ⟨evs, c2⟩ := r
      simp only [hop] at hrun
      exact ih c2 hrun (Op.run_emergencyMode c c2 op evs hop hc)

/-- C9: in every state reachable from a constructed controller by a sequence of
`addEmergencyVehicle`, `manualOverride`, `handleEmergency` calls and
`runSimulation` iterations, `emergencyMode` is true exactly when the queue is
not empty, and the same holds in the state any further operation leads to, so
`emergencyMode` is false only in states whose queue is empty. -/
theorem C9_emergencyMode_iff_nonempty (c : IntersectionController) (h : Reachable c) :
    (c.emergencyMode = true ↔ c.emergencyQueue.empty = false) ∧
    ∀ (op : Op) (evs : List Event) (c1 : IntersectionController),
      op.run c = some (evs, c1) →
        (c1.emergencyMode = false ↔ c1.emergencyQueue.empty = true) := by
  obtain ⟨red, green, yellow, ops, hops⟩ := h
  have hc : c.emergencyMode = true ↔ c.emergencyQueue.empty = false :=
    runOps_emergencyMode ops _ c hops
      (by simp [IntersectionController.new, PriorityQueue.new, PriorityQueue.empty])
  refine ⟨hc, ?_⟩
  intro op evs c1 hrun
  have h1 := Op.run_emergencyMode c c1 op evs hrun hc
  cases hm : c1.emergencyMode <;> cases hq : c1.emergencyQueue.empty <;> simp_all

/-- C9 at the state reached by one normal iteration followed by one enqueue. -/
theorem C9_emergencyMode_iff_nonempty_witness :
    Reachable
      { trafficLight := ⟨TrafficLight.State.GREEN, 5, 3, 2⟩
        pedestrianLight := ⟨PedestrianLight.State.DONT_WALK⟩
        emergencyMode := true
        emergencyQueue := ⟨["AMB1"]⟩ } ∧
    ((true = true ↔ PriorityQueue.empty ⟨["AMB1"]⟩ = false) ∧
      ∀ (op : Op) (evs : List Event) (c1 : IntersectionController),
        op.run
            { trafficLight := ⟨TrafficLight.State.GREEN, 5, 3, 2⟩
              pedestrianLight := ⟨PedestrianLight.State.DONT_WALK⟩
              emergencyMode := true
              emergencyQueue := ⟨["AMB1"]⟩ } = some (evs, c1) →
          (c1.emergencyMode = false ↔ c1.emergencyQueue.empty = true)) :=
  have hr : Reachable
      { trafficLight := ⟨TrafficLight.State.GREEN, 5, 3, 2⟩
        pedestrianLight := ⟨PedestrianLight.State.DONT_WALK⟩
        emergencyMode := true
        emergencyQueue := ⟨["AMB1"]⟩ } :=
    ⟨5, 3, 2, [Op.runSimulationIteration, Op.addEmergencyVehicle "AMB1"], by decide⟩
  ⟨hr, C9_emergencyMode_iff_nonempty _ hr⟩

/-- C10, the claim refuted: after the first `runSimulation` iteration on a fresh
controller the vehicle light is GREEN while the pedestrian light is DONT_WALK;
and after a manual override with input 2 on a fresh controller the pedestrian
light is WALK while the vehicle light is RED. -/
theorem C10_counterexample :
    runOps (IntersectionController.new 5 3 2) [Op.runSimulationIteration]
      = some
        { trafficLight := ⟨TrafficLight.State.GREEN, 5, 3, 2⟩
          pedestrianLight := ⟨PedestrianLight.State.DONT_WALK⟩
          emergencyMode := false
          emergencyQueue := ⟨[]⟩ } ∧
    PedestrianLight.State.DONT_WALK ≠ PedestrianLight.State.WALK ∧
    runOps (IntersectionController.new 5 3 2) [Op.manualOverride 2]
      = some
        { trafficLight := ⟨TrafficLight.State.RED, 5, 3, 2⟩
          pedestrianLight := ⟨PedestrianLight.State.WALK⟩
          emergencyMode := false
          emergencyQueue := ⟨[]⟩ } ∧
    TrafficLight.State.RED ≠ TrafficLight.State.GREEN := by
  decide

/-- C10 as amended: in a normal `runSimulation` iteration, in the state in which
the lights have been displayed and the sleep is taken, the pedestrian light is
WALK exactly when the vehicle light, still the one the iteration started with,
is GREEN; the iteration then advances the vehicle light alone, so that at its
end the pedestrian light is WALK exactly when the phase before the advance was
GREEN; and a manual override with input 2 sets WALK without touching the vehicle
light. -/
theorem C10_pedestrian_follows_displayed_phase (c : IntersectionController) :
    ((runSimulationDisplay c).2.pedestrianLight.currentState = PedestrianLight.State.WALK ↔
      (runSimulationDisplay c).2.trafficLight.currentState = TrafficLight.State.GREEN) ∧
    (runSimulationDisplay c).2.trafficLight = c.trafficLight ∧
    (∃ (evs : List Event) (c1 : IntersectionController),
      runSimulationIteration { c with emergencyMode := false } = some (evs, c1) ∧
      (c1.pedestrianLight.currentState = PedestrianLight.State.WALK ↔
        c.trafficLight.currentState = TrafficLight.State.GREEN) ∧
      c1.trafficLight = c.trafficLight.changeState) ∧
    (c.manualOverride 2).2.pedestrianLight.currentState = PedestrianLight.State.WALK ∧
    (c.manualOverride 2).2.trafficLight = c.trafficLight := by
  have hw : PedestrianLight.State.DONT_WALK ≠ PedestrianLight.State.WALK := by decide
  have hiff : ((c.pedestrianLight.changeState c.trafficLight.isGreen).currentState
      = PedestrianLight.State.WALK ↔ c.trafficLight.currentState = TrafficLight.State.GREEN) := by
    by_cases hg : c.trafficLight.currentState = TrafficLight.State.GREEN
    · simp [PedestrianLight.changeState, TrafficLight.isGreen, hg]
    · simp [PedestrianLight.changeState, TrafficLight.isGreen, hg, hw]
  refine ⟨hiff, rfl, ⟨_, _, rfl, hiff, rfl⟩, rfl, rfl⟩

/-! ## Operator commands -/

/-- C11: for an override input other than 1, 2 and 3, `manualOverride` writes
its prompt and "Invalid input!" and returns the controller unchanged: vehicle
light with its durations, pedestrian light, queue and `emergencyMode`. -/
theorem C11_manualOverride_invalid (c : IntersectionController) (input : Int)
    (h1 : input ≠ 1) (h2 : input ≠ 2) (h3 : input ≠ 3) :
    c.manualOverride input
      = ([Event.out "Manual Override: Enter 1 for RED, 2 for GREEN, 3 for YELLOW: ",
          Event.out "Invalid input!\n"], c) := by
  simp [manualOverride, h1, h2, h3]

/-- C11 at the input 7 of the specification's scenario, on a fresh controller. -/
theorem C11_manualOverride_invalid_witness :
    (7 : Int) ≠ 1 ∧ (7 : Int) ≠ 2 ∧ (7 : Int) ≠ 3 ∧
    (IntersectionController.new 5 3 2).manualOverride 7
      = ([Event.out "Manual Override: Enter 1 for RED, 2 for GREEN, 3 for YELLOW: ",
          Event.out "Invalid input!\n"], IntersectionController.new 5 3 2) :=
  ⟨by decide, by decide, by decide,
    C11_manualOverride_invalid (IntersectionController.new 5 3 2) 7
      (by decide) (by decide) (by decide)⟩

/-- C12: `manualOverride` never changes the vehicle light (phase and
durations), the queue or `emergencyMode`, whatever the input; input 2 writes the
GREEN acknowledgment and leaves the pedestrian light in WALK, inputs 1 and 3
write the RED and the YELLOW acknowledgment and return the controller as it
was. -/
theorem C12_manualOverride_display_only (c : IntersectionController) (input : Int) :
    (c.manualOverride input).2.trafficLight = c.trafficLight ∧
    (c.manualOverride input).2.emergencyQueue = c.emergencyQueue ∧
    (c.manualOverride input).2.emergencyMode = c.emergencyMode ∧
    c.manualOverride 2
      = ([Event.out "Manual Override: Enter 1 for RED, 2 for GREEN, 3 for YELLOW: ",
          Event.out "Traffic Light set to GREEN\n"],
         { c with pedestrianLight := ⟨PedestrianLight.State.WALK⟩ }) ∧
    c.manualOverride 1
      = ([Event.out "Manual Override: Enter 1 for RED, 2 for GREEN, 3 for YELLOW: ",
          Event.out "Traffic Light set to RED\n"], c) ∧
    c.manualOverride 3
      = ([Event.out "Manual Override: Enter 1 for RED, 2 for GREEN, 3 for YELLOW: ",
          Event.out "Traffic Light set to YELLOW\n"], c) := by
  have hf := manualOverride_frame c input
  exact ⟨hf.1, hf.2.1, hf.2.2, rfl, rfl, rfl⟩

/-- The loop of `main` is left exactly on command 3. -/
theorem mainLoopIteration_exit (c : IntersectionController) (command : Int)
    (vehicleID : String) (input : Int) :
    (mainLoopIteration c command vehicleID input).2.2 = true ↔ command = 3 := by
  unfold mainLoopIteration
  by_cases h1 : command = 1
  · simp [h1]
  · by_cases h2 : command = 2
    · simp [h2]
    · by_cases h3 : command = 3
      · simp [h3]
      · simp [h1, h2, h3]

/-- C13: for a top-level command other than 1, 2 and 3, one pass of the command
loop of `main` writes the prompt and "Invalid command!", returns the controller
unchanged and stays in the loop; and for every command, the pass leaves the loop
exactly when the command is 3. -/
theorem C13_invalid_command (c : IntersectionController) (command command' : Int)
    (vehicleID : String) (input : Int)
    (h1 : command ≠ 1) (h2 : command ≠ 2) (h3 : command ≠ 3) :
    mainLoopIteration c command vehicleID input
      = ([Event.out "Enter command: 1 for emergency, 2 for manual override, 3 to exit: ",
          Event.out "Invalid command!\n"], c, false) ∧
    ((mainLoopIteration c command' vehicleID input).2.2 = true ↔ command' = 3) := by
  refine ⟨?_, mainLoopIteration_exit c command' vehicleID input⟩
  simp [mainLoopIteration, h1, h2, h3]

/-- C13 at the command 5 of the specification's scenario, with one vehicle
waiting in the queue. -/
theorem C13_invalid_command_witness :
    (5 : Int) ≠ 1 ∧ (5 : Int) ≠ 2 ∧ (5 : Int) ≠ 3 ∧
    mainLoopIteration ((IntersectionController.new 5 3 2).addEmergencyVehicle "AMB1") 5 "" 0
      = ([Event.out "Enter command: 1 for emergency, 2 for manual override, 3 to exit: ",
          Event.out "Invalid command!\n"],
         (IntersectionController.new 5 3 2).addEmergencyVehicle "AMB1", false) ∧
    ((mainLoopIteration ((IntersectionController.new 5 3 2).addEmergencyVehicle "AMB1")
        3 "" 0).2.2 = true ↔ (3 : Int) = 3) :=
  ⟨by decide, by decide, by decide,
    C13_invalid_command ((IntersectionController.new 5 3 2).addEmergencyVehicle "AMB1") 5 3 "" 0
      (by decide) (by decide) (by decide)⟩

/-- C14, the claim refuted: on a fresh controller, whose pedestrian light is
DONT_WALK, the top-level command 2 with override input 2 leaves the pedestrian
light in WALK. -/
theorem C14_counterexample :
    (IntersectionController.new 5 3 2).pedestrianLight = ⟨PedestrianLight.State.DONT_WALK⟩ ∧
    (mainLoopIteration (IntersectionController.new 5 3 2) 2 "" 2).2.1.pedestrianLight
      = ⟨PedestrianLight.State.WALK⟩ ∧
    (⟨PedestrianLight.State.WALK⟩ : PedestrianLight) ≠ ⟨PedestrianLight.State.DONT_WALK⟩ := by
  decide

/-- C14 as amended: no pass of the command loop changes the vehicle light; the
pedestrian light is set to WALK by command 2 with override input 2 and is left
as it was by every other command and input. -/
theorem C14_command_frame (c : IntersectionController) (command : Int) (vehicleID : String)
    (input : Int) :
    (mainLoopIteration c command vehicleID input).2.1.trafficLight = c.trafficLight ∧
    (mainLoopIteration c command vehicleID input).2.1.pedestrianLight
      = (if command = 2 ∧ input = 2 then ⟨PedestrianLight.State.WALK⟩ else c.pedestrianLight) := by
  unfold mainLoopIteration
  by_cases h1 : command = 1
  · subst h1
    simp [addEmergencyVehicle]
  · by_cases h2 : command = 2
    · subst h2
      by_cases i1 : input = 1
      · subst i1
        simp [manualOverride]
      · by_cases i2 : input = 2
        · subst i2
          simp [manualOverride, PedestrianLight.changeState]
        · by_cases i3 : input = 3
          · subst i3
            simp [manualOverride]
          · simp [manualOverride, i1, i2, i3]
    · by_cases h3 : command = 3
      · subst h3
        simp
      · simp [h1, h2, h3]

/-! ## The scope of the lock -/

/-- The lock states along `handleEmergency` with one more pass of the loop: the
loop condition is evaluated without the lock, the pass runs from `lock` to
`unlock`, and the rest follows without the lock. -/
theorem withLockState_handleEmergencySyncN_succ (n : Nat) :
    withLockState false (handleEmergencySyncN (n + 1))
      = (SyncAction.queueEmpty, false) :: (SyncAction.lock, false) ::
          (SyncAction.queueTop, true) :: (SyncAction.queuePop, true) ::
          (SyncAction.sleep 2, true) :: (SyncAction.unlock, true) ::
          withLockState false (handleEmergencySyncN n) := by
  simp [handleEmergencySyncN, handleEmergencyBodySync, withLockState]

/-- Along `handleEmergency` with `n` passes of the loop, `top()`, `pop()` and the
sleep happen with the lock held, there are `n` sleeps, all with the lock held,
and the lock is free at the end. -/
theorem handleEmergencySyncN_lock (n : Nat) :
    (∀ p ∈ withLockState false (handleEmergencySyncN n),
      (p.1 = SyncAction.sleep 2 ∨ p.1 = SyncAction.queueTop ∨ p.1 = SyncAction.queuePop) →
        p.2 = true) ∧
    (withLockState false (handleEmergencySyncN n)).count (SyncAction.sleep 2, true) = n ∧
    (withLockState false (handleEmergencySyncN n)).count (SyncAction.sleep 2, false) = 0 ∧
    lockStateAfter false (handleEmergencySyncN n) = false := by
  induction n with
  | zero =>
    refine ⟨?_, by decide, by decide, by decide⟩
    intro p hp
    simp only [handleEmergencySyncN, withLockState, List.mem_cons, List.mem_nil_iff,
      or_false] at hp
    rcases hp with rfl | rfl <;> simp
  | succ n ih =>
    obtain ⟨ih1, ih2, ih3, ih4⟩ := ih
    rw [withLockState_handleEmergencySyncN_succ]
    refine ⟨?_, ?_, ?_, ?_⟩
    · intro p hp
      simp only [List.mem_cons] at hp
      rcases hp with rfl | rfl | rfl | rfl | rfl | rfl | hp
      · simp
      · simp
      · simp
      · simp
      · simp
      · simp
      · exact ih1 p hp
    · simp [List.count_cons, ih2]
    · simp [List.count_cons, ih3]
    · simpa [handleEmergencySyncN, handleEmergencyBodySync, lockStateAfter] using ih4

/-- C15, the claim refuted: in `handleEmergency` on a controller with one
waiting vehicle the two-second sleep happens while `queueMutex` is held, and the
loop condition `emergencyQueue.empty()` is evaluated while it is not held. -/
theorem C15_counterexample :
    (SyncAction.sleep 2, true) ∈
      withLockState false
        ((IntersectionController.new 5 3 2).addEmergencyVehicle "AMB1").handleEmergencySync ∧
    (SyncAction.queueEmpty, false) ∈
      withLockState false
        ((IntersectionController.new 5 3 2).addEmergencyVehicle "AMB1").handleEmergencySync := by
  decide

/-- C15 as amended: `queueMutex` is held for the whole of each pass through the
drain loop of `handleEmergency`, so `top()`, `pop()` and every two-second sleep
happen with the lock held (one such sleep for each vehicle handled, none without
the lock), and the lock is free again when `handleEmergency` returns; in
`addEmergencyVehicle` the push and the write of `emergencyMode` happen with the
lock held, and the lock is free again at the end. -/
theorem C15_lock_scope (c : IntersectionController) :
    (∀ p ∈ withLockState false c.handleEmergencySync,
      (p.1 = SyncAction.sleep 2 ∨ p.1 = SyncAction.queueTop ∨ p.1 = SyncAction.queuePop) →
        p.2 = true) ∧
    (withLockState false c.handleEmergencySync).count (SyncAction.sleep 2, true)
      = c.emergencyQueue.size ∧
    (withLockState false c.handleEmergencySync).count (SyncAction.sleep 2, false) = 0 ∧
    lockStateAfter false c.handleEmergencySync = false ∧
    (∃ handled : List String,
      c.handleEmergency = some (handlingEvents handled,
        { c with emergencyQueue := PriorityQueue.new, emergencyMode := false }) ∧
      handled.length
        = (withLockState false c.handleEmergencySync).count (SyncAction.sleep 2, true)) ∧
    withLockState false addEmergencyVehicleSync
      = [(SyncAction.lock, false), (SyncAction.queuePush, true),
          (SyncAction.setEmergencyMode true, true), (SyncAction.unlock, true)] ∧
    lockStateAfter false addEmergencyVehicleSync = false := by
  obtain ⟨h1, h2, h3, h4⟩ := handleEmergencySyncN_lock c.emergencyQueue.size
  obtain ⟨handled, hrun, hperm, _⟩ := handleEmergency_spec c
  refine ⟨h1, h2, h3, h4, ⟨handled, hrun, ?_⟩, rfl, rfl⟩
  rw [hperm.length_eq]
  exact h2.symm

/-! ## The simulation loop -/

/-- C16: with `emergencyMode` false, one `runSimulation` iteration displays the
current vehicle phase, sets and displays the pedestrian light as WALK for GREEN
and DONT_WALK for RED and YELLOW, sleeps for the duration configured for that
phase, writes the separator and ends with the vehicle light in the next phase;
durations, queue and `emergencyMode` are unchanged. With durations 5, 3, 2 the
iteration after the first one shows GREEN and WALK and sleeps 3. -/
theorem C16_normal_iteration (r g y : Int) (ped : PedestrianLight) (q : PriorityQueue) :
    runSimulationIteration ⟨⟨TrafficLight.State.RED, r, g, y⟩, ped, false, q⟩
      = some ([Event.out "Traffic Light: RED\n", Event.out "Pedestrian Light: DON'T WALK\n",
          Event.sleep r, Event.out "---------------------\n"],
        ⟨⟨TrafficLight.State.GREEN, r, g, y⟩, ⟨PedestrianLight.State.DONT_WALK⟩, false, q⟩) ∧
    runSimulationIteration ⟨⟨TrafficLight.State.GREEN, r, g, y⟩, ped, false, q⟩
      = some ([Event.out "Traffic Light: GREEN\n", Event.out "Pedestrian Light: WALK\n",
          Event.sleep g, Event.out "---------------------\n"],
        ⟨⟨TrafficLight.State.YELLOW, r, g, y⟩, ⟨PedestrianLight.State.WALK⟩, false, q⟩) ∧
    runSimulationIteration ⟨⟨TrafficLight.State.YELLOW, r, g, y⟩, ped, false, q⟩
      = some ([Event.out "Traffic Light: YELLOW\n", Event.out "Pedestrian Light: DON'T WALK\n",
          Event.sleep y, Event.out "---------------------\n"],
        ⟨⟨TrafficLight.State.RED, r, g, y⟩, ⟨PedestrianLight.State.DONT_WALK⟩, false, q⟩) ∧
    (∃ (evs : List Event) (c1 : IntersectionController),
      runSimulationLoop 1 (IntersectionController.new 5 3 2) = some (evs, c1) ∧
      runSimulationIteration c1
        = some ([Event.out "Traffic Light: GREEN\n", Event.out "Pedestrian Light: WALK\n",
            Event.sleep 3, Event.out "---------------------\n"],
          ⟨⟨TrafficLight.State.YELLOW, 5, 3, 2⟩, ⟨PedestrianLight.State.WALK⟩, false,
            PriorityQueue.new⟩)) :=
  ⟨rfl, rfl, rfl, ⟨_, _, rfl, rfl⟩⟩

/-- C17: with `emergencyMode` true, one `runSimulation` iteration is the call of
`handleEmergency`: it handles the whole queue contents, writes nothing else,
ends with the queue empty and `emergencyMode` false and leaves both lights as
they were; it counts as one of the iterations of the loop, and the iteration
after it is a normal one that displays the phase held before the emergency. -/
theorem C17_emergency_iteration (c : IntersectionController) (n : Nat)
    (h : c.emergencyMode = true) :
    ∃ handled : List String,
      handled.Perm c.emergencyQueue.c ∧
      runSimulationIteration c
        = some (handlingEvents handled,
            { c with emergencyQueue := PriorityQueue.new, emergencyMode := false }) ∧
      runSimulationLoop (n + 1) c
        = (match runSimulationLoop n
              { c with emergencyQueue := PriorityQueue.new, emergencyMode := false } with
          | none => none
          | some (evs, c2) => some (handlingEvents handled ++ evs, c2)) ∧
      runSimulationIteration
          { c with emergencyQueue := PriorityQueue.new, emergencyMode := false }
        = some (c.trafficLight.displayState
              ++ (c.pedestrianLight.changeState c.trafficLight.isGreen).displayState
              ++ [Event.sleep c.trafficLight.getStateDuration,
                  Event.out "---------------------\n"],
            { trafficLight := c.trafficLight.changeState
              pedestrianLight := c.pedestrianLight.changeState c.trafficLight.isGreen
              emergencyMode := false
              emergencyQueue := PriorityQueue.new }) := by
  obtain ⟨handled, hrun, hperm, _⟩ := handleEmergency_spec c
  have hiter : runSimulationIteration c
      = some (handlingEvents handled,
          { c with emergencyQueue := PriorityQueue.new, emergencyMode := false }) := by
    simp only [runSimulationIteration, h, if_true]
    exact hrun
  refine ⟨handled, hperm, hiter, ?_, rfl⟩
  simp only [runSimulationLoop, hiter]

/-- C17 at a controller with one waiting vehicle and nine iterations to follow. -/
theorem C17_emergency_iteration_witness :
    ((IntersectionController.new 5 3 2).addEmergencyVehicle "AMB1").emergencyMode = true ∧
    ∃ handled : List String,
      handled.Perm ["AMB1"] ∧
      runSimulationIteration ((IntersectionController.new 5 3 2).addEmergencyVehicle "AMB1")
        = some (handlingEvents handled, IntersectionController.new 5 3 2) ∧
      runSimulationLoop (9 + 1) ((IntersectionController.new 5 3 2).addEmergencyVehicle "AMB1")
        = (match runSimulationLoop 9 (IntersectionController.new 5 3 2) with
          | none => none
          | some (evs, c2) => some (handlingEvents handled ++ evs, c2)) ∧
      runSimulationIteration (IntersectionController.new 5 3 2)
        = some ([Event.out "Traffic Light: RED\n", Event.out "Pedestrian Light: DON'T WALK\n",
            Event.sleep 5, Event.out "---------------------\n"],
          ⟨⟨TrafficLight.State.GREEN, 5, 3, 2⟩, ⟨PedestrianLight.State.DONT_WALK⟩, false,
            PriorityQueue.new⟩) :=
  ⟨rfl, C17_emergency_iteration ((IntersectionController.new 5 3 2).addEmergencyVehicle "AMB1")
    9 rfl⟩

/-- The total sleep of two event lists in a row is the sum of their totals. -/
theorem totalSleep_append (e₁ e₂ : List Event) :
    totalSleep (e₁ ++ e₂) = totalSleep e₁ + totalSleep e₂ := by
  induction e₁ with
  | nil => simp [totalSleep]
  | cons a t ih =>
    cases a with
    | out s => simpa [totalSleep] using ih
    | sleep k => simp [totalSleep, ih, add_assoc]

/-- A normal iteration on a light in one of the three phases: four events, the
sleep being the duration of the phase, and the light advanced. -/
theorem IntersectionController.runSimulationIteration_normal (c : IntersectionController)
    (hm : c.emergencyMode = false)
    (hp : c.trafficLight.currentState = TrafficLight.State.RED ∨
      c.trafficLight.currentState = TrafficLight.State.GREEN ∨
      c.trafficLight.currentState = TrafficLight.State.YELLOW) :
    ∃ (evs : List Event) (c1 : IntersectionController),
      runSimulationIteration c = some (evs, c1) ∧
      evs = c.trafficLight.displayState
        ++ (c.pedestrianLight.changeState c.trafficLight.isGreen).displayState
        ++ [Event.sleep c.trafficLight.getStateDuration, Event.out "---------------------\n"] ∧
      evs.length = 4 ∧
      totalSleep evs = c.trafficLight.getStateDuration ∧
      c1.trafficLight = c.trafficLight.changeState ∧
      c1.pedestrianLight = c.pedestrianLight.changeState c.trafficLight.isGreen ∧
      c1.emergencyMode = false ∧
      c1.emergencyQueue = c.emergencyQueue := by
  refine ⟨c.trafficLight.displayState
      ++ (c.pedestrianLight.changeState c.trafficLight.isGreen).displayState
      ++ [Event.sleep c.trafficLight.getStateDuration, Event.out "---------------------\n"],
    { trafficLight := c.trafficLight.changeState
      pedestrianLight := c.pedestrianLight.changeState c.trafficLight.isGreen
      emergencyMode := c.emergencyMode
      emergencyQueue := c.emergencyQueue }, ?_, rfl, ?_, ?_, rfl, rfl, hm, rfl⟩
  · simp [runSimulationIteration, runSimulationDisplay, hm]
  · have hd : c.trafficLight.displayState.length = 1 := by
      rcases hp with h | h | h <;> simp [TrafficLight.displayState, h] <;> decide
    have hped : (c.pedestrianLight.changeState c.trafficLight.isGreen).displayState.length
        = 1 := by
      unfold PedestrianLight.displayState
      split <;> rfl
    simp [hd, hped]
  · have hd : totalSleep c.trafficLight.displayState = 0 := by
      unfold TrafficLight.displayState
      split
      · rfl
      · split
        · rfl
        · split <;> rfl
    have hped : totalSleep (c.pedestrianLight.changeState c.trafficLight.isGreen).displayState
        = 0 := by
      unfold PedestrianLight.displayState
      split <;> rfl
    simp [totalSleep_append, hd, hped, totalSleep]

/-- The loop of `runSimulation` without emergencies, started on a light in one
of the three phases: `n` normal iterations. -/
theorem IntersectionController.runSimulationLoop_normal (n : Nat)
    (c : IntersectionController) (hm : c.emergencyMode = false)
    (hp : c.trafficLight.currentState = TrafficLight.State.RED ∨
      c.trafficLight.currentState = TrafficLight.State.GREEN ∨
      c.trafficLight.currentState = TrafficLight.State.YELLOW) :
    ∃ (evs : List Event) (c1 : IntersectionController),
      runSimulationLoop n c = some (evs, c1) ∧
      evs.length = 4 * n ∧
      totalSleep evs = TrafficLight.durationSum n c.trafficLight ∧
      c1.trafficLight = c.trafficLight.changeStateN n ∧
      c1.emergencyMode = false ∧
      c1.emergencyQueue = c.emergencyQueue := by
  induction n generalizing c with
  | zero => exact ⟨[], c, rfl, rfl, rfl, rfl, hm, rfl⟩
  | succ n ih =>
    obtain ⟨e1, c1, hrun, _, hlen, hsleep, hlight, _, hmode, hqueue⟩ :=
      runSimulationIteration_normal c hm hp
    have hp1 : c1.trafficLight.currentState = TrafficLight.State.RED ∨
        c1.trafficLight.currentState = TrafficLight.State.GREEN ∨
        c1.trafficLight.currentState = TrafficLight.State.YELLOW := by
      rw [hlight]
      exact TrafficLight.changeState_enumerator c.trafficLight
    obtain ⟨e2, c2, hrun2, hlen2, hsleep2, hlight2, hmode2, hqueue2⟩ := ih c1 hmode hp1
    refine ⟨e1 ++ e2, c2, ?_, ?_, ?_, ?_, hmode2, ?_⟩
    · simp only [runSimulationLoop, hrun, hrun2]
    · rw [List.length_append, hlen, hlen2]
      omega
    · rw [totalSleep_append, hsleep, hsleep2, hlight]
      rfl
    · rw [hlight2, hlight]
      rfl
    · rw [hqueue2, hqueue]

/-- The sum of the durations shown in `n` iterations is the sum, over the
iterations `k` below `n`, of the duration of the phase reached by `k` advances. -/
theorem TrafficLight.durationSum_eq_sum (n : Nat) (t : TrafficLight) :
    TrafficLight.durationSum n t
      = ((List.range n).map (fun k => (t.changeStateN k).getStateDuration)).sum := by
  induction n generalizing t with
  | zero => rfl
  | succ n ih =>
    rw [List.range_succ_eq_map, List.map_cons, List.sum_cons, List.map_map]
    simp only [TrafficLight.durationSum, ih t.changeState]
    rfl

/-- The loop of `runSimulation` making `a + b` passes is the loop making `a`
passes followed by the loop making `b` passes. -/
theorem IntersectionController.runSimulationLoop_add (a b : Nat)
    (c : IntersectionController) :
    runSimulationLoop (a + b) c =
      match runSimulationLoop a c with
      | none => none
      | some (e₁, c₁) =>
        match runSimulationLoop b c₁ with
        | none => none
        | some (e₂, c₂) => some (e₁ ++ e₂, c₂) := by
  induction a generalizing c with
  | zero =>
    simp only [Nat.zero_add, runSimulationLoop]
    cases runSimulationLoop b c with
    | none => rfl
    | some r => rfl
  | succ a ih =>
    rw [Nat.add_right_comm]
    simp only [runSimulationLoop]
    cases hit : runSimulationIteration c with
    | none => rfl
    | some r =>
      obtain ⟨e, c1⟩ := r
      simp only []
      rw [ih c1]
      cases runSimulationLoop a c1 with
      | none => rfl
      | some r1 =>
        obtain ⟨e1, c2⟩ := r1
        simp only []
        cases runSimulationLoop b c2 with
        | none => rfl
        | some r2 => simp [List.append_assoc]

/-- C18: on a freshly constructed controller with no emergencies,
`runSimulation(n)` returns after `n` iterations of four events each; the events
of iteration `k` (counted from 0) follow the `4 * k` events of the iterations
before it and display the phase reached by `k` advances from RED, with the
sleep of that phase; the final phase is the one reached by `n` advances, and the
total sleep is the sum of the durations of the displayed phases. In the
reference run (durations 5, 3, 2, ten iterations) the total sleep is 35 seconds,
the final vehicle phase GREEN and the final pedestrian state DONT_WALK. -/
theorem C18_runSimulation (r g y : Int) (n : Nat) :
    (∃ (evs : List Event) (cn : IntersectionController),
      (IntersectionController.new r g y).runSimulation (n : Int) = some (evs, cn) ∧
      evs.length = 4 * n ∧
      cn.trafficLight = (TrafficLight.new r g y).changeStateN n ∧
      cn.emergencyMode = false ∧
      cn.emergencyQueue = PriorityQueue.new ∧
      totalSleep evs
        = ((List.range n).map
            (fun k => ((TrafficLight.new r g y).changeStateN k).getStateDuration)).sum ∧
      ∀ k, k < n →
        ∃ (before : List Event) (ck : IntersectionController) (rest : List Event),
          runSimulationLoop k (IntersectionController.new r g y) = some (before, ck) ∧
          before.length = 4 * k ∧
          evs = before
            ++ (((TrafficLight.new r g y).changeStateN k).displayState
              ++ (ck.pedestrianLight.changeState
                    ((TrafficLight.new r g y).changeStateN k).isGreen).displayState
              ++ [Event.sleep ((TrafficLight.new r g y).changeStateN k).getStateDuration,
                  Event.out "---------------------\n"])
            ++ rest) ∧
    (∃ (evs : List Event) (cn : IntersectionController),
      (IntersectionController.new 5 3 2).runSimulation 10 = some (evs, cn) ∧
      evs.length = 40 ∧
      totalSleep evs = 35 ∧
      cn.trafficLight.currentState = TrafficLight.State.GREEN ∧
      cn.pedestrianLight.currentState = PedestrianLight.State.DONT_WALK) := by
  constructor
  · have hstart : (IntersectionController.new r g y).trafficLight.currentState
          = TrafficLight.State.RED ∨
        (IntersectionController.new r g y).trafficLight.currentState
          = TrafficLight.State.GREEN ∨
        (IntersectionController.new r g y).trafficLight.currentState
          = TrafficLight.State.YELLOW := Or.inl rfl
    obtain ⟨evs, cn, hrun, hlen, hsleep, hlight, hmode, hqueue⟩ :=
      runSimulationLoop_normal n (IntersectionController.new r g y) rfl hstart
    refine ⟨evs, cn, ?_, hlen, hlight, hmode, hqueue, ?_, ?_⟩
    · simpa [runSimulation] using hrun
    · rw [hsleep, TrafficLight.durationSum_eq_sum]
      rfl
    · intro k hk
      obtain ⟨before, ck, hrunk, hlenk, _, hlightk, hmodek, _⟩ :=
        runSimulationLoop_normal k (IntersectionController.new r g y) rfl hstart
      have hpk : ck.trafficLight.currentState = TrafficLight.State.RED ∨
          ck.trafficLight.currentState = TrafficLight.State.GREEN ∨
          ck.trafficLight.currentState = TrafficLight.State.YELLOW := by
        rw [hlightk]
        exact TrafficLight.changeStateN_enumerator k _ hstart
      obtain ⟨shown, c1, hit, hshown, _, _, hlight1, _, hmode1, _⟩ :=
        runSimulationIteration_normal ck hmodek hpk
      have hp1 : c1.trafficLight.currentState = TrafficLight.State.RED ∨
          c1.trafficLight.currentState = TrafficLight.State.GREEN ∨
          c1.trafficLight.currentState = TrafficLight.State.YELLOW := by
        rw [hlight1]
        exact TrafficLight.changeState_enumerator ck.trafficLight
      obtain ⟨rest, c2, hrest, _, _, _, _, _⟩ :=
        runSimulationLoop_normal (n - (k + 1)) c1 hmode1 hp1
      have hsplit : n = k + (1 + (n - (k + 1))) := by omega
      have hone : runSimulationLoop (1 + (n - (k + 1))) ck = some (shown ++ rest, c2) := by
        rw [Nat.add_comm 1]
        simp only [runSimulationLoop, hit, hrest]
      have hall := runSimulationLoop_add k (1 + (n - (k + 1))) (IntersectionController.new r g y)
      rw [← hsplit, hrun, hrunk] at hall
      simp only [hone, Option.some.injEq, Prod.mk.injEq] at hall
      refine ⟨before, ck, rest, hrunk, hlenk, ?_⟩
      rw [hall.1, hshown, hlightk]
      simp [List.append_assoc]
      rfl
  · exact ⟨_, _, rfl, by decide, by decide, by decide, by decide⟩

/-! ## Access to the queue -/

/-- The loop body of `handleEmergency` leaves defined behaviour exactly on an
empty queue, and so do `top()` and `pop()`. -/
theorem IntersectionController.handleEmergencyBody_eq_none (q : PriorityQueue) :
    (handleEmergencyBody q = none ↔ q.empty = true) ∧
    (q.top? = none ↔ q.empty = true) ∧
    (q.pop? = none ↔ q.empty = true) := by
  have hg := PriorityQueue.greatest_eq_none q.c
  have he := PriorityQueue.empty_iff q
  cases hq : PriorityQueue.greatest q.c with
  | none =>
    have h0 : q.empty = true := he.2 (hg.1 hq)
    simp [handleEmergencyBody, PriorityQueue.top?, PriorityQueue.pop?, hq, h0]
  | some m =>
    have h0 : ¬ q.empty = true := by
      intro h
      rw [hg.2 (he.1 h)] at hq
      cases hq
    simp [handleEmergencyBody, PriorityQueue.top?, PriorityQueue.pop?, hq, h0]

/-- C19: in sequential execution `handleEmergency` returns normally on every
controller state, which in this model means that no `top()` or `pop()` was
called on an empty queue (such a call, and only such a call, makes the loop body
yield `none`); it makes one pass of the loop for each queued identifier, each
pass on a non-empty queue; and on an empty queue it makes no pass, writes
nothing and only sets `emergencyMode` to false. -/
theorem C19_no_empty_queue_access (c : IntersectionController) (q : PriorityQueue) :
    (∃ handled : List String,
      c.handleEmergency = some (handlingEvents handled,
        { c with emergencyQueue := PriorityQueue.new, emergencyMode := false }) ∧
      handled.length = c.emergencyQueue.size ∧
      handleEmergencyBodyN c.emergencyQueue.size c.emergencyQueue
        = some (handlingEvents handled, PriorityQueue.new) ∧
      ∀ k, k < c.emergencyQueue.size → ∃ qk : PriorityQueue,
        handleEmergencyBodyN k c.emergencyQueue = some (handlingEvents (handled.take k), qk) ∧
        qk.empty = false) ∧
    (handleEmergencyBody q = none ↔ q.empty = true) ∧
    (q.top? = none ↔ q.empty = true) ∧
    (q.pop? = none ↔ q.empty = true) ∧
    ({ c with emergencyQueue := PriorityQueue.new } : IntersectionController).handleEmergency
      = some ([], { c with emergencyQueue := PriorityQueue.new, emergencyMode := false }) := by
  obtain ⟨handled, hloop, hperm, _, hbodyN, hprefix⟩ :=
    handleEmergencyLoop_spec c.emergencyQueue.c.length c.emergencyQueue rfl
  have hb := handleEmergencyBody_eq_none q
  refine ⟨⟨handled, ?_, hperm.length_eq, hbodyN, hprefix⟩, hb.1, hb.2.1, hb.2.2, ?_⟩
  · simp [handleEmergency, hloop]
  · exact handleEmergency_of_empty _ rfl

/-! ## The period of the light cycle -/

open TrafficLight.State

/-- Advancing `a + b` times is advancing `a` times and then `b` times. -/
theorem TrafficLight.changeStateN_add (a b : Nat) (t : TrafficLight) :
    t.changeStateN (a + b) = (t.changeStateN a).changeStateN b := by
  induction a generalizing t with
  | zero => simp [TrafficLight.changeStateN]
  | succ a ih =>
    rw [Nat.add_right_comm]
    simp only [TrafficLight.changeStateN]
    exact ih t.changeState

/-- From one of the three phases, three advances give back the same light. -/
theorem TrafficLight.changeStateN_three (t : TrafficLight)
    (h : t.currentState = RED ∨ t.currentState = GREEN ∨ t.currentState = YELLOW) :
    t.changeStateN 3 = t := by
  obtain ⟨s, r, g, y⟩ := t
  simp only at h
  rcases h with rfl | rfl | rfl <;> rfl

/-- From one of the three phases, the light after `k` advances only depends on
the remainder of `k` modulo 3. -/
theorem TrafficLight.changeStateN_mod (k : Nat) (t : TrafficLight)
    (h : t.currentState = RED ∨ t.currentState = GREEN ∨ t.currentState = YELLOW) :
    t.changeStateN k = t.changeStateN (k % 3) := by
  induction k using Nat.strong_induction_on with
  | _ k ih =>
    by_cases hk : k < 3
    · rw [Nat.mod_eq_of_lt hk]
    · have hk3 : k = 3 + (k - 3) := by omega
      have hmod : k % 3 = (k - 3) % 3 := by omega
      rw [hmod, ← ih (k - 3) (by omega)]
      conv_lhs => rw [hk3]
      rw [TrafficLight.changeStateN_add, TrafficLight.changeStateN_three t h]

/-- C20: the light cycle has period exactly 3. From each of RED, GREEN and
YELLOW, `k` calls of `changeState` give the starting phase again exactly when 3
divides `k`; `changeState` has no fixed point; and the three phases reached by
one, two and three advances from a phase are the other two phases and the phase
itself, so three consecutive advances visit all three phases. -/
theorem C20_period_three (r g y : Int) (k : Nat) (t : TrafficLight) :
    ((TrafficLight.changeStateN k ⟨RED, r, g, y⟩).currentState = RED ↔ 3 ∣ k) ∧
    ((TrafficLight.changeStateN k ⟨GREEN, r, g, y⟩).currentState = GREEN ↔ 3 ∣ k) ∧
    ((TrafficLight.changeStateN k ⟨YELLOW, r, g, y⟩).currentState = YELLOW ↔ 3 ∣ k) ∧
    t.changeState.currentState ≠ t.currentState ∧
    [(TrafficLight.changeStateN 1 ⟨RED, r, g, y⟩).currentState,
      (TrafficLight.changeStateN 2 ⟨RED, r, g, y⟩).currentState,
      (TrafficLight.changeStateN 3 ⟨RED, r, g, y⟩).currentState] = [GREEN, YELLOW, RED] ∧
    [(TrafficLight.changeStateN 1 ⟨GREEN, r, g, y⟩).currentState,
      (TrafficLight.changeStateN 2 ⟨GREEN, r, g, y⟩).currentState,
      (TrafficLight.changeStateN 3 ⟨GREEN, r, g, y⟩).currentState] = [YELLOW, RED, GREEN] ∧
    [(TrafficLight.changeStateN 1 ⟨YELLOW, r, g, y⟩).currentState,
      (TrafficLight.changeStateN 2 ⟨YELLOW, r, g, y⟩).currentState,
      (TrafficLight.changeStateN 3 ⟨YELLOW, r, g, y⟩).currentState] = [RED, GREEN, YELLOW] := by
  have hmod : k % 3 = 0 ∨ k % 3 = 1 ∨ k % 3 = 2 := by omega
  have hdvd : 3 ∣ k ↔ k % 3 = 0 := Nat.dvd_iff_mod_eq_zero
  refine ⟨?_, ?_, ?_, ?_, rfl, rfl, rfl⟩
  · rw [TrafficLight.changeStateN_mod k _ (Or.inl rfl), hdvd]
    rcases hmod with h | h | h <;> rw [h]
    · change (RED = RED ↔ 0 = 0)
      decide
    · change (GREEN = RED ↔ 1 = 0)
      decide
    · change (YELLOW = RED ↔ 2 = 0)
      decide
  · rw [TrafficLight.changeStateN_mod k _ (Or.inr (Or.inl rfl)), hdvd]
    rcases hmod with h | h | h <;> rw [h]
    · change (GREEN = GREEN ↔ 0 = 0)
      decide
    · change (YELLOW = GREEN ↔ 1 = 0)
      decide
    · change (RED = GREEN ↔ 2 = 0)
      decide
  · rw [TrafficLight.changeStateN_mod k _ (Or.inr (Or.inr rfl)), hdvd]
    rcases hmod with h | h | h <;> rw [h]
    · change (YELLOW = YELLOW ↔ 0 = 0)
      decide
    · change (RED = YELLOW ↔ 1 = 0)
      decide
    · change (GREEN = YELLOW ↔ 2 = 0)
      decide
  · by_cases h1 : t.currentState = RED
    · have hnext : t.changeState.currentState = GREEN := by
        simp [TrafficLight.changeState, h1]
      rw [hnext, h1]
      decide
    · by_cases h2 : t.currentState = GREEN
      · have hnext : t.changeState.currentState = YELLOW := by
          unfold TrafficLight.changeState
          rw [if_neg h1, if_pos h2]
        rw [hnext, h2]
        decide
      · have hnext : t.changeState.currentState = RED := by
          unfold TrafficLight.changeState
          rw [if_neg h1, if_neg h2]
        rw [hnext]
        exact fun h => h1 h.symm

end TL
